import Mathlib

/-!
Verification of the ElevrionAI career-pathfinder core against its
natural-language specification.

The definitions below are a shallow embedding of the Python sources:
  * `src/agents/career_pathfinder_optimized.py` — priority trimming,
    time estimation, skill-hour table, fallback roadmap, gap-analyzer
    response handling;
  * `src/backend/app.py` — skill-category scoring and the readiness-level
    mapping of `evaluate_industry_readiness`.

Python machine arithmetic is embedded over `Nat`/`Int`/`Rat`.  The two
places the source multiplies an integer by a decimal float and truncates
(`int(max_count * 0.6)`, `int(total * 1.1)`, `int(total * 0.85)`) are
embedded as exact natural-number floor division: for every operand in the
reachable range the IEEE-754 double product rounds to a value whose
truncation coincides with the exact floor (the constant's representation
error is below half an ulp of every product that lands on or next to an
integer), so the embedding is value-faithful.
-/

namespace ElevrionAI

/-- Embedding of `get_priority_skills` from
`src/agents/career_pathfinder_optimized.py` (lines 137–154).
`int(max_count * 0.6)` is embedded as `max_count * 6 / 10` (floor), and
Python's `max(int(..), max_count - len(nice_to_have))` over possibly
negative ints coincides with the `Nat` form because the left argument is
nonnegative. -/
def get_priority_skills (missing_skills nice_to_have : List String)
    (max_count : Nat := 8) : List String × List String :=
  if missing_skills.length + nice_to_have.length ≤ max_count then
    (missing_skills, nice_to_have)
  else
    let missing_quota :=
      min missing_skills.length
        (max (max_count * 6 / 10) (max_count - nice_to_have.length))
    let nice_quota := max_count - missing_quota
    (missing_skills.take missing_quota, nice_to_have.take nice_quota)

/-- Requirement entry of a role profile category, mirroring the skill
dicts consumed by `calculate_skill_category_score` in
`src/backend/app.py` (each has a `skill` name and a `required_level`). -/
structure SkillReq where
  skill : String
  required_level : Nat
deriving DecidableEq

/-- Role profile shape read by `evaluate_industry_readiness`
(`src/backend/app.py`, lines 1113–1116). -/
structure RoleProfile where
  core_technical_skills : List SkillReq
  other_technical_skills : List SkillReq
  soft_skills : List SkillReq

/-- Embedding of Python's `str.lower()` (equivalent to `String.toLower`,
but written over the character list so it reduces in the kernel). -/
def py_lower (s : String) : String :=
  String.mk (s.data.map Char.toLower)

/-- Skill-name normalisation used throughout `src/backend/app.py`:
`skill.lower().replace('-', '').replace('_', '')`. -/
def normalize_skill (s : String) : String :=
  ((py_lower s).replace ("-") ("")).replace ("_") ("")

/-- Embedding of `calculate_skill_category_score` from
`src/backend/app.py` (lines 653–666).  Python's `in` test on the list of
lowered user skills is embedding as decidable list membership; the float
division is embedded exactly over `Rat`. -/
def calculate_skill_category_score (user_skills : List String)
    (required_skills : List SkillReq) : ℚ :=
  if required_skills.isEmpty then 0
  else
    let user_skills_lower := user_skills.map normalize_skill
    let present_count := required_skills.countP
      (fun skill_req => decide (normalize_skill skill_req.skill ∈ user_skills_lower))
    (present_count : ℚ) / (required_skills.length : ℚ)

/-- Embedding of the weighted overall score of
`evaluate_industry_readiness` (`src/backend/app.py`, lines 1119–1124):
`(core_score * 0.6) + (other_score * 0.3) + (soft_score * 0.1)`. -/
def overall_score (extracted_skills : List String) (role_profile : RoleProfile) : ℚ :=
  calculate_skill_category_score extracted_skills role_profile.core_technical_skills * (6/10)
    + calculate_skill_category_score extracted_skills role_profile.other_technical_skills * (3/10)
    + calculate_skill_category_score extracted_skills role_profile.soft_skills * (1/10)

/-- Embedding of the readiness-level mapping of
`evaluate_industry_readiness` (`src/backend/app.py`, lines 1127–1132). -/
def readiness_level (score : ℚ) : String :=
  if score ≥ 8/10 then ("Ready / Strong fit")
  else if score ≥ 6/10 then ("Workable with targeted upskilling")
  else ("Needs foundation")

/-- Matching helper: does `pat` occur at the head of `s`? -/
def matchesAt : List Char → List Char → Bool
  | [], _ => true
  | _ :: _, [] => false
  | p :: ps, c :: cs => p == c && matchesAt ps cs

/-- Matching helper: does `pat` occur anywhere inside `s`? -/
def containsSubList (pat : List Char) : List Char → Bool
  | [] => matchesAt pat []
  | c :: cs => matchesAt pat (c :: cs) || containsSubList pat cs

/-- Embedding of Python's substring test `pat in s`. -/
def str_contains (s pat : String) : Bool :=
  containsSubList pat.toList s.toList

/-- Embedding of `estimate_skill_hours` from
`src/agents/career_pathfinder_optimized.py` (lines 410–440): the fixed
skill-complexity table, keyed by substring tests on the lowered name. -/
def estimate_skill_hours (skill : String) : Nat :=
  let skill_lower := py_lower skill
  if ["python", "javascript", "java", "react", "angular", "vue", "django", "flask",
      "nodejs"].any (fun lang => str_contains skill_lower lang) then 15
  else if ["sql", "mongodb", "postgresql", "mysql", "redis", "docker",
      "kubernetes"].any (fun db => str_contains skill_lower db) then 12
  else if ["aws", "azure", "gcp", "cloud"].any
      (fun cloud => str_contains skill_lower cloud) then 10
  else if ["machine-learning", "data-science", "tensorflow", "pytorch", "pandas",
      "numpy"].any (fun ds => str_contains skill_lower ds) then 18
  else if ["git", "jira", "figma", "excel", "tableau"].any
      (fun tool => str_contains skill_lower tool) then 6
  else if ["html", "css", "bootstrap", "sass", "tailwind"].any
      (fun web => str_contains skill_lower web) then 8
  else 10

/-- Argument passed as `weekly_hours` to `calculate_time_estimates`:
Python's `Optional[int]` annotation is not enforced, so the value is
either omitted (`None`), an integer, or some non-integer object. -/
inductive WeeklyHoursArg where
  | none
  | int (i : Int)
  | other
deriving DecidableEq

/-- Embedding of the `weekly_hours` normalisation at the top of
`calculate_time_estimates` (`src/agents/career_pathfinder_optimized.py`,
lines 351–355): `None` is replaced by the configured default 8, then
`max(1, weekly_hours) if isinstance(weekly_hours, int) else 8`. -/
def resolve_weekly_hours : WeeklyHoursArg → Nat
  | .none => (max 1 (8 : Int)).toNat
  | .int i => (max 1 i).toNat
  | .other => 8

/-- Roadmap step as consumed by `calculate_time_estimates`: a skill dict
with `skill`, `course`, `reason` and an optional `est_hours`. -/
structure SkillStep where
  skill : String
  course : String
  reason : String
  est_hours : Option Nat
deriving DecidableEq

/-- Roadmap phase: a phase name and its ordered steps. -/
structure RoadmapPhase where
  phase : String
  skills : List SkillStep
deriving DecidableEq

/-- Phase after time estimation: the (backfilled) steps plus
`phase_total_hours` and the derived `phase_time_frame` string. -/
structure EnhancedPhase where
  phase : String
  skills : List SkillStep
  phase_total_hours : Nat
  phase_time_frame : String
deriving DecidableEq

/-- Result record of `calculate_time_estimates`. -/
structure TimeEstimates where
  phases : List EnhancedPhase
  overall_total_hours : Nat
  overall_buffered_hours : Nat
  overall_time_frame : String
  weekly_hours : Nat
deriving DecidableEq

/-- Backfill of a step's missing `est_hours` from the complexity table,
mirroring the `if 'est_hours' not in skill` branch of the phase loop. -/
def backfill_est_hours (s : SkillStep) : SkillStep :=
  { s with est_hours := some (s.est_hours.getD (estimate_skill_hours s.skill)) }

/-- Ceiling division, embedding `math.ceil(a / b)` for `b ≥ 1`. -/
def ceil_div (a b : Nat) : Nat :=
  (a + b - 1) / b

/-- Plural suffix used by the time-frame strings. -/
def week_suffix (n : Nat) : String :=
  if n ≠ 1 then ("s") else ("")

/-- Embedding of the per-phase body of the loop in
`calculate_time_estimates` (`src/agents/career_pathfinder_optimized.py`,
lines 363–393).  `int(phase_total_hours * 0.85)` is embedded as
`phase_total_hours * 85 / 100`. -/
def enhance_phase (weekly_hours : Nat) (p : RoadmapPhase) : EnhancedPhase :=
  let skills := p.skills.map backfill_est_hours
  let phase_total_hours := (skills.map (fun s => s.est_hours.getD 0)).sum
  let phase_weeks := ceil_div phase_total_hours weekly_hours
  let base_frame := "Estimated time: " ++ toString phase_total_hours ++ " hours (~"
      ++ toString phase_weeks ++ " week" ++ week_suffix phase_weeks ++ " at "
      ++ toString weekly_hours ++ " hrs/week)"
  let phase_time_frame :=
    if skills.length > 2 then
      let effective_hours := phase_total_hours * 85 / 100
      let effective_weeks := ceil_div effective_hours weekly_hours
      base_frame ++ ". Some foundational steps can overlap; effective calendar time may be "
        ++ toString effective_hours ++ "h (~" ++ toString effective_weeks ++ " week"
        ++ week_suffix effective_weeks ++ ")"
    else base_frame
  { phase := p.phase, skills := skills, phase_total_hours := phase_total_hours,
    phase_time_frame := phase_time_frame }

/-- Embedding of `calculate_time_estimates` from
`src/agents/career_pathfinder_optimized.py` (lines 347–408).
`int(overall_total_hours * (1 + buffer_percentage / 100))` is embedded as
`overall_total_hours * (100 + buffer_percentage) / 100`. -/
def calculate_time_estimates (roadmap : List RoadmapPhase)
    (weekly_hours : WeeklyHoursArg := .none) : TimeEstimates :=
  let w := resolve_weekly_hours weekly_hours
  let buffer_percentage := 10
  let phases := roadmap.map (enhance_phase w)
  let overall_total_hours := (phases.map (fun p => p.phase_total_hours)).sum
  let buffered_hours := overall_total_hours * (100 + buffer_percentage) / 100
  let buffered_weeks := ceil_div buffered_hours w
  let overall_time_frame := "Total: " ++ toString overall_total_hours ++ "h (+"
      ++ toString buffer_percentage ++ "% buffer " ++ toString buffered_hours ++ "h) ~ "
      ++ toString buffered_weeks ++ " weeks at " ++ toString w ++ "h/week"
  { phases := phases, overall_total_hours := overall_total_hours,
    overall_buffered_hours := buffered_hours, overall_time_frame := overall_time_frame,
    weekly_hours := w }

/-- Embedding of `get_courses_for_skill_optimized` from
`src/agents/career_pathfinder_optimized.py` (lines 481–486): the curated
`COURSES_DATA` table (external data, absent when the data files are not
found) is passed in as an association list, scanned in order for a
case-insensitive key match; the first three courses are returned. -/
def get_courses_for_skill_optimized (courses_data : List (String × List String))
    (skill : String) : String × List String :=
  match courses_data.find? (fun kv => py_lower skill == py_lower kv.1) with
  | some kv => (skill, kv.2.take 3)
  | none => (skill, [])

/-- Step construction in the fallback-roadmap loop
(`src/agents/career_pathfinder_optimized.py`, lines 462–472). -/
def fallback_step (courses_data : List (String × List String)) (skill : String) : SkillStep :=
  let course_list := (get_courses_for_skill_optimized courses_data skill).2
  let course_title := course_list.headD ("Learn " ++ skill ++ " - Online Course")
  { skill := skill, course := course_title,
    reason := "Essential " ++ skill ++ " skills",
    est_hours := some (estimate_skill_hours skill) }

/-- Phase slicing of `generate_fallback_roadmap` over the concatenated
skill list: three named contiguous slices of size
`max 1 (n / 3)` (the last slice absorbing the remainder), keeping only
the nonempty ones. -/
def fallback_phases (courses_data : List (String × List String))
    (all_skills : List String) : List RoadmapPhase :=
  if all_skills = [] then []
  else
    let skills_per_phase := max 1 (all_skills.length / 3)
    let mkPhase (nm : String) (phase_skills : List String) : Option RoadmapPhase :=
      if phase_skills = [] then none
      else some { phase := nm, skills := phase_skills.map (fallback_step courses_data) }
    List.filterMap id
      [mkPhase ("Phase 1: Foundation") (all_skills.take skills_per_phase),
       mkPhase ("Phase 2: Intermediate") ((all_skills.drop skills_per_phase).take skills_per_phase),
       mkPhase ("Phase 3: Advanced") (all_skills.drop (2 * skills_per_phase))]

/-- Embedding of `generate_fallback_roadmap` from
`src/agents/career_pathfinder_optimized.py` (lines 442–479). -/
def generate_fallback_roadmap (courses_data : List (String × List String))
    (missing_skills nice_to_have : List String) : List RoadmapPhase :=
  fallback_phases courses_data (missing_skills ++ nice_to_have)

/-- Embedding of the JSON values Python's `json.loads` can produce, as
far as the gap analyzer inspects them. -/
inductive PyJson where
  | obj (fields : List (String × PyJson))
  | arr (elems : List PyJson)
  | str (s : String)
  | num (n : Int)
  | bool (b : Bool)
  | null

/-- Embedding of the markdown code-fence stripping at the top of the
`try` block of `agent2_gap_analyzer`
(`src/agents/career_pathfinder_optimized.py`, lines 682–687). -/
def strip_code_fences (content : String) : String :=
  let content := content.trim
  if content.startsWith ("```json") then
    ((content.replace ("```json") ("")).replace ("```") ("")).trim
  else if content.startsWith ("```") then
    (content.replace ("```") ("")).trim
  else content

/-- Embedding of Python's `result.get(key, [])` on a parsed JSON
object. -/
def pyjson_get (fields : List (String × PyJson)) (key : String) : PyJson :=
  ((fields.find? (fun kv => kv.1 == key)).map Prod.snd).getD (PyJson.arr [])

/-- Embedding of the response handling of `agent2_gap_analyzer`
(`src/agents/career_pathfinder_optimized.py`, lines 680–697).
`json.loads` is an external library call, modelled as a parameter that
returns `none` exactly when it raises `JSONDecodeError`.  The `except`
clause catches only `JSONDecodeError` and `KeyError`, and `.get` never
raises `KeyError`; calling `.get` on a parsed non-object value would
raise an uncaught `AttributeError`, modelled as `Except.error`. -/
def agent2_handle_response (json_loads : String → Option PyJson)
    (content : String) : Except String (PyJson × PyJson) :=
  let stripped := strip_code_fences content
  match json_loads stripped with
  | Option.none => Except.ok (PyJson.arr [], PyJson.arr [])
  | Option.some (PyJson.obj fields) =>
      Except.ok (pyjson_get fields ("missing_skills"), pyjson_get fields ("nice_to_have"))
  | Option.some _ => Except.error ("AttributeError")

/-- C3 (counterexample): on
`missing = ["python","sql","docker","aws","git","excel","linux","bash","java","react"]`,
`nice = ["figma"]`, `max_count = 8`, the trimmer does NOT return
`(missing[:6], nice[:1])`: the quota arithmetic gives
`missing_quota = min(10, max(int(4.8), 8-1)) = 7`, not 6. -/
theorem get_priority_skills_c3_cex :
    get_priority_skills
        ["python", "sql", "docker", "aws", "git", "excel", "linux", "bash", "java", "react"]
        ["figma"] 8
      ≠ (["python", "sql", "docker", "aws", "git", "excel", "linux", "bash", "java", "react"].take 6,
         ["figma"].take 1) := by
  decide

/-- C3 (amended): for the same inputs the trimmer computes
`missing_quota = 7` and returns exactly `(missing[:7], nice[:1])`. -/
theorem get_priority_skills_c3_amended :
    get_priority_skills
        ["python", "sql", "docker", "aws", "git", "excel", "linux", "bash", "java", "react"]
        ["figma"] 8
      = (["python", "sql", "docker", "aws", "git", "excel", "linux"], ["figma"]) := by
  decide

/-- C10: `get_priority_skills` always returns an initial segment of
`missing_skills` and an initial segment of `nice_to_have`; when the
combined input length exceeds `max_count` the two outputs together hold
exactly `min (|missing| + |nice|) max_count` skills, and otherwise they
hold all `|missing| + |nice|` input skills — the quota arithmetic never
underfills or overfills the budget. -/
theorem get_priority_skills_budget (m n : List String) (k : Nat) :
    (∃ i, (get_priority_skills m n k).1 = m.take i) ∧
    (∃ j, (get_priority_skills m n k).2 = n.take j) ∧
    (m.length + n.length > k →
      (get_priority_skills m n k).1.length + (get_priority_skills m n k).2.length
        = min (m.length + n.length) k) ∧
    (m.length + n.length ≤ k →
      (get_priority_skills m n k).1.length + (get_priority_skills m n k).2.length
        = m.length + n.length) := by
  have hdiv : k * 6 / 10 ≤ k := by
    calc k * 6 / 10 ≤ k * 10 / 10 := Nat.div_le_div_right (by omega)
    _ = k := Nat.mul_div_cancel k (by omega)
  unfold get_priority_skills
  by_cases h : m.length + n.length ≤ k
  · rw [if_pos h]
    refine ⟨⟨m.length, (List.take_length m).symm⟩, ⟨n.length, (List.take_length n).symm⟩, ?_, ?_⟩
    · omega
    · intro _; rfl
  · rw [if_neg h]
    simp only
    refine ⟨⟨_, rfl⟩, ⟨_, rfl⟩, ?_, ?_⟩
    · intro _
      simp only [List.length_take]
      omega
    · omega

/-- C1: every category score is the number of required skills present in
the user's list — matched case-insensitively after stripping `-` and `_`
— divided by the number of required skills, with `0` for an empty
required list, and the overall score is `0.6*core + 0.3*other +
0.1*soft`. -/
theorem category_score_and_overall_formula (user : List String) (rp : RoleProfile) :
    (∀ required : List SkillReq,
      calculate_skill_category_score user required =
        if required.length = 0 then 0
        else ((required.filter (fun r =>
            decide (∃ u ∈ user, normalize_skill u = normalize_skill r.skill))).length : ℚ)
          / (required.length : ℚ)) ∧
    overall_score user rp =
      (6/10) * calculate_skill_category_score user rp.core_technical_skills
        + (3/10) * calculate_skill_category_score user rp.other_technical_skills
        + (1/10) * calculate_skill_category_score user rp.soft_skills := by
  constructor
  · intro required
    unfold calculate_skill_category_score
    by_cases h : required = []
    · subst h
      simp
    · have hlen : required.length ≠ 0 := by simp [h]
      rw [if_neg (by simp [h]), if_neg hlen]
      simp only
      rw [List.countP_eq_length_filter]
      have hpq :
          required.filter
              (fun skill_req => decide (normalize_skill skill_req.skill ∈ user.map normalize_skill))
            = required.filter (fun r =>
                decide (∃ u ∈ user, normalize_skill u = normalize_skill r.skill)) := by
        apply List.filter_congr
        intro r _
        simp [List.mem_map]
      rw [hpq]
  · unfold overall_score
    ring

/-- C2: the readiness-level mapping is total with closed lower bounds:
scores at least `0.8` map to "Ready / Strong fit", scores in `[0.6, 0.8)`
map to "Workable with targeted upskilling", lower scores map to
"Needs foundation", and the boundary scores `0.8` and `0.6` land in the
higher band. -/
theorem readiness_level_bands (s : ℚ) :
    (8/10 ≤ s → readiness_level s = "Ready / Strong fit") ∧
    (6/10 ≤ s → s < 8/10 → readiness_level s = "Workable with targeted upskilling") ∧
    (s < 6/10 → readiness_level s = "Needs foundation") ∧
    readiness_level (8/10) = "Ready / Strong fit" ∧
    readiness_level (6/10) = "Workable with targeted upskilling" := by
  unfold readiness_level
  refine ⟨?_, ?_, ?_, by norm_num, by norm_num⟩
  · intro h
    rw [if_pos h]
  · intro h1 h2
    rw [if_neg (by linarith), if_pos h1]
  · intro h
    rw [if_neg (by linarith), if_neg (by linarith)]

/-- C2 witness: the theorem applied at the two boundary scores. -/
theorem readiness_level_bands_witness :
    readiness_level (8/10) = "Ready / Strong fit" ∧
    readiness_level (6/10) = "Workable with targeted upskilling" :=
  ⟨(readiness_level_bands (8/10)).1 (by norm_num),
   (readiness_level_bands (6/10)).2.1 (by norm_num) (by norm_num)⟩

lemma calculate_skill_category_score_nonneg (user : List String) (req : List SkillReq) :
    0 ≤ calculate_skill_category_score user req := by
  unfold calculate_skill_category_score
  split
  · exact le_refl 0
  · positivity

lemma calculate_skill_category_score_mono (req : List SkillReq)
    {s sp : List String} (h : s ⊆ sp) :
    calculate_skill_category_score s req ≤ calculate_skill_category_score sp req := by
  unfold calculate_skill_category_score
  split
  · exact le_refl 0
  · rename_i hne
    have hlen : 0 < (req.length : ℚ) := by
      have : req ≠ [] := by simpa [List.isEmpty_iff] using hne
      have : 0 < req.length := List.length_pos.mpr this
      exact_mod_cast this
    have hcount :
        req.countP (fun r => decide (normalize_skill r.skill ∈ s.map normalize_skill))
          ≤ req.countP (fun r => decide (normalize_skill r.skill ∈ sp.map normalize_skill)) := by
      apply List.countP_mono_left
      intro r _ hr
      simp only [decide_eq_true_eq, List.mem_map] at hr ⊢
      obtain ⟨u, hu, he⟩ := hr
      exact ⟨u, h hu, he⟩
    simp only
    have hcast : ((req.countP
          (fun r => decide (normalize_skill r.skill ∈ s.map normalize_skill)) : ℚ))
        ≤ ((req.countP
          (fun r => decide (normalize_skill r.skill ∈ sp.map normalize_skill)) : ℚ)) := by
      exact_mod_cast hcount
    gcongr

/-- C8: the overall readiness score is monotone in the user's skill set:
adding skills never lowers it. -/
theorem overall_score_mono (rp : RoleProfile) {s sp : List String} (h : s ⊆ sp) :
    overall_score s rp ≤ overall_score sp rp := by
  unfold overall_score
  have h1 := calculate_skill_category_score_mono rp.core_technical_skills h
  have h2 := calculate_skill_category_score_mono rp.other_technical_skills h
  have h3 := calculate_skill_category_score_mono rp.soft_skills h
  have w1 : (0:ℚ) ≤ 6/10 := by norm_num
  nlinarith [h1, h2, h3]

/-- C8 witness: monotonicity applied to a concrete role profile and the
skill sets `["python"] ⊆ ["python", "sql"]`. -/
theorem overall_score_mono_witness :
    overall_score ["python"]
        ⟨[⟨"python", 3⟩, ⟨"sql", 3⟩, ⟨"statistics", 3⟩], [], []⟩
      ≤ overall_score ["python", "sql"]
        ⟨[⟨"python", 3⟩, ⟨"sql", 3⟩, ⟨"statistics", 3⟩], [], []⟩ :=
  overall_score_mono _ (by intro a ha; simp only [List.mem_cons] at ha ⊢; tauto)

/-- C4 (counterexample): passing the non-positive integer `0` as
`weekly_hours` does NOT fall back to the default 8 — the code clamps
integers with `max(1, ·)`, so it becomes 1. -/
theorem weekly_hours_nonpositive_cex :
    (calculate_time_estimates [] (WeeklyHoursArg.int 0)).weekly_hours = 1 ∧
    (calculate_time_estimates [] (WeeklyHoursArg.int 0)).weekly_hours ≠ 8 := by
  constructor
  · rfl
  · decide

/-- C4 (amended): `weekly_hours` defaults to 8 when omitted, a
non-integer value falls back to the default 8, and an integer value is
clamped below at 1 — so every non-positive integer input resolves to 1,
not to the default. -/
theorem weekly_hours_resolution (rm : List RoadmapPhase) :
    (calculate_time_estimates rm WeeklyHoursArg.none).weekly_hours = 8 ∧
    (calculate_time_estimates rm WeeklyHoursArg.other).weekly_hours = 8 ∧
    (∀ i : Int, (calculate_time_estimates rm (WeeklyHoursArg.int i)).weekly_hours
      = (max 1 i).toNat) ∧
    (∀ i : Int, i ≤ 0 →
      (calculate_time_estimates rm (WeeklyHoursArg.int i)).weekly_hours = 1) := by
  refine ⟨rfl, rfl, fun i => rfl, fun i hi => ?_⟩
  show (max 1 i).toNat = 1
  omega

/-- C4 witness: the amended resolution rule applied at the concrete
non-positive integer input `-5`. -/
theorem weekly_hours_resolution_witness :
    (calculate_time_estimates [] (WeeklyHoursArg.int (-5))).weekly_hours = 1 :=
  (weekly_hours_resolution []).2.2.2 (-5) (by norm_num)

/-- C5: for every roadmap and weekly-hours argument the buffered total is
exactly `⌊overall_total_hours * 1.10⌋`, and in particular totals 0, 10,
37 and 100 buffer to 0, 11, 40 and 110. -/
theorem buffered_hours_floor (roadmap : List RoadmapPhase) (wh : WeeklyHoursArg) :
    ((calculate_time_estimates roadmap wh).overall_buffered_hours
      = Nat.floor (((calculate_time_estimates roadmap wh).overall_total_hours : ℚ) * (11/10))) ∧
    (calculate_time_estimates []).overall_total_hours = 0 ∧
    (calculate_time_estimates []).overall_buffered_hours = 0 ∧
    ((calculate_time_estimates [⟨"P", [⟨"x", "c", "r", some 10⟩]⟩]).overall_total_hours,
      (calculate_time_estimates [⟨"P", [⟨"x", "c", "r", some 10⟩]⟩]).overall_buffered_hours)
      = (10, 11) ∧
    ((calculate_time_estimates [⟨"P", [⟨"x", "c", "r", some 37⟩]⟩]).overall_total_hours,
      (calculate_time_estimates [⟨"P", [⟨"x", "c", "r", some 37⟩]⟩]).overall_buffered_hours)
      = (37, 40) ∧
    ((calculate_time_estimates [⟨"P", [⟨"x", "c", "r", some 100⟩]⟩]).overall_total_hours,
      (calculate_time_estimates [⟨"P", [⟨"x", "c", "r", some 100⟩]⟩]).overall_buffered_hours)
      = (100, 110) := by
  refine ⟨?_, rfl, rfl, rfl, rfl, rfl⟩
  show (calculate_time_estimates roadmap wh).overall_total_hours * (100 + 10) / 100
    = Nat.floor (((calculate_time_estimates roadmap wh).overall_total_hours : ℚ) * (11/10))
  set t := (calculate_time_estimates roadmap wh).overall_total_hours with ht
  have h1 : t * (100 + 10) / 100 = t * 11 / 10 := by omega
  have h2 : ((t : ℚ) * (11/10)) = ((t * 11 : Nat) : ℚ) / ((10 : Nat) : ℚ) := by
    push_cast
    ring
  rw [h1, h2, Nat.floor_div_nat, Nat.floor_natCast]

/-- C6: for every roadmap, phase totals are the sums of the per-step
`est_hours` after backfilling missing ones from the complexity table —
stated both against the input steps and against the returned (backfilled)
steps — and the overall total is the sum of the phase totals. -/
theorem phase_totals_spec (roadmap : List RoadmapPhase) (wh : WeeklyHoursArg) :
    ((calculate_time_estimates roadmap wh).phases.map (fun p => p.phase_total_hours)
      = roadmap.map (fun p =>
          (p.skills.map (fun s => s.est_hours.getD (estimate_skill_hours s.skill))).sum)) ∧
    ((calculate_time_estimates roadmap wh).phases.map (fun p => p.phase_total_hours)
      = (calculate_time_estimates roadmap wh).phases.map (fun p =>
          (p.skills.map (fun s => s.est_hours.getD 0)).sum)) ∧
    ((calculate_time_estimates roadmap wh).overall_total_hours
      = ((calculate_time_estimates roadmap wh).phases.map
          (fun p => p.phase_total_hours)).sum) := by
  have hphase : ∀ p : RoadmapPhase,
      (enhance_phase (resolve_weekly_hours wh) p).phase_total_hours
        = (p.skills.map (fun s => s.est_hours.getD (estimate_skill_hours s.skill))).sum := by
    intro p
    show ((p.skills.map backfill_est_hours).map (fun s => s.est_hours.getD 0)).sum = _
    rw [List.map_map]
    congr 1
  refine ⟨?_, ?_, rfl⟩
  · show (roadmap.map (enhance_phase (resolve_weekly_hours wh))).map
        (fun p => p.phase_total_hours) = _
    rw [List.map_map]
    congr 1
    funext p
    exact hphase p
  · show (roadmap.map (enhance_phase (resolve_weekly_hours wh))).map
        (fun p => p.phase_total_hours)
      = (roadmap.map (enhance_phase (resolve_weekly_hours wh))).map
        (fun p => (p.skills.map (fun s => s.est_hours.getD 0)).sum)
    rw [List.map_map, List.map_map]
    congr 1

lemma fallback_phases_step_form (courses_data : List (String × List String))
    (all : List String) (p : RoadmapPhase) (hp : p ∈ fallback_phases courses_data all) :
    ∃ sl : List String, p.skills = sl.map (fallback_step courses_data) := by
  unfold fallback_phases at hp
  split at hp
  · simp at hp
  · simp only [List.mem_filterMap, List.mem_cons, List.not_mem_nil, or_false, id_eq] at hp
    obtain ⟨o, ho, hid⟩ := hp
    subst hid
    rcases ho with ho | ho | ho <;>
    · split at ho
      · exact absurd ho (by simp)
      · exact ⟨_, congrArg RoadmapPhase.skills (Option.some.inj ho)⟩

/-- C7: the deterministic fallback roadmap always has at most 3 phases —
exactly 3 when at least 3 skills are supplied, exactly as many phases as
skills when fewer, and none when both input lists are empty — every step
carries `est_hours` straight from the fixed complexity table, and on
`missing = ["git","docker","kubernetes"]`, `nice = []` it builds 3 phases
with hours git → 6, docker → 12, kubernetes → 12. -/
theorem generate_fallback_roadmap_spec (courses_data : List (String × List String))
    (missing nice : List String) :
    ((generate_fallback_roadmap courses_data missing nice).length ≤ 3) ∧
    (3 ≤ (missing ++ nice).length →
      (generate_fallback_roadmap courses_data missing nice).length = 3) ∧
    ((missing ++ nice).length < 3 →
      (generate_fallback_roadmap courses_data missing nice).length
        = (missing ++ nice).length) ∧
    (∀ p ∈ generate_fallback_roadmap courses_data missing nice, ∀ s ∈ p.skills,
      s.est_hours = some (estimate_skill_hours s.skill)) ∧
    ((generate_fallback_roadmap [] ["git", "docker", "kubernetes"] []).map
        (fun p => (p.phase, p.skills.map (fun s => (s.skill, s.est_hours))))
      = [("Phase 1: Foundation", [("git", some 6)]),
         ("Phase 2: Intermediate", [("docker", some 12)]),
         ("Phase 3: Advanced", [("kubernetes", some 12)])]) := by
  unfold generate_fallback_roadmap
  refine ⟨?_, ?_, ?_, ?_, by decide⟩
  case _ =>
    unfold fallback_phases
    split
    · simp
    · simp only
      split_ifs <;> simp
  case _ =>
    intro h3
    generalize hall : missing ++ nice = all at h3 ⊢
    unfold fallback_phases
    have hne : ¬ all = [] := by
      intro hc
      rw [hc] at h3
      simp at h3
    rw [if_neg hne]
    have hdm := Nat.div_add_mod all.length 3
    have hmod : all.length % 3 < 3 := Nat.mod_lt _ (by omega)
    have h1 : ¬ all.take (max 1 (all.length / 3)) = [] := by
      rw [← List.length_eq_zero.not]
      rw [List.length_take]
      omega
    have h2 : ¬ (all.drop (max 1 (all.length / 3))).take (max 1 (all.length / 3)) = [] := by
      rw [← List.length_eq_zero.not]
      rw [List.length_take, List.length_drop]
      omega
    have h3d : ¬ all.drop (2 * max 1 (all.length / 3)) = [] := by
      rw [← List.length_eq_zero.not]
      rw [List.length_drop]
      omega
    simp only
    rw [if_neg h1, if_neg h2, if_neg h3d]
    rfl
  case _ =>
    intro hlt
    generalize hall : missing ++ nice = all at hlt ⊢
    match all, hlt with
    | [], _ => rfl
    | [a], _ =>
      unfold fallback_phases
      simp
    | [a, b], _ =>
      unfold fallback_phases
      simp
    | a :: b :: c :: t, hlt =>
      simp at hlt
      omega
  case _ =>
    intro p hp s hs
    obtain ⟨sl, hsl⟩ := fallback_phases_step_form courses_data (missing ++ nice) p hp
    rw [hsl, List.mem_map] at hs
    obtain ⟨x, _, hx⟩ := hs
    rw [← hx]
    rfl

/-- C7 witness: the fallback roadmap for three missing skills has
exactly three phases. -/
theorem generate_fallback_roadmap_spec_witness :
    (generate_fallback_roadmap [] ["git", "docker", "kubernetes"] []).length = 3 :=
  (generate_fallback_roadmap_spec [] ["git", "docker", "kubernetes"] []).2.1 (by decide)

/-- C10 witness: the budget equation applied at a concrete over-budget
input (three missing skills, one nice-to-have, budget two). -/
theorem get_priority_skills_budget_witness :
    (get_priority_skills ["a", "b", "c"] ["d"] 2).1.length
      + (get_priority_skills ["a", "b", "c"] ["d"] 2).2.length
    = min (["a", "b", "c"].length + ["d"].length) 2 :=
  (get_priority_skills_budget ["a", "b", "c"] ["d"] 2).2.2.1 (by decide)

/-- C9: whenever the (fence-stripped) response fails to parse as JSON,
the gap analyzer sets both `missing_skills` and `nice_to_have` to the
empty list and no exception escapes the parsing step. -/
theorem agent2_parse_failure_empty (json_loads : String → Option PyJson)
    (content : String) (h : json_loads (strip_code_fences content) = Option.none) :
    agent2_handle_response json_loads content
      = Except.ok (PyJson.arr [], PyJson.arr []) := by
  unfold agent2_handle_response
  simp only
  rw [h]

/-- C9 witness: the parse-failure contract at a concrete non-JSON
response. -/
theorem agent2_parse_failure_empty_witness :
    agent2_handle_response (fun _ => Option.none) "this is not JSON"
      = Except.ok (PyJson.arr [], PyJson.arr []) :=
  agent2_parse_failure_empty (fun _ => Option.none) "this is not JSON" rfl

end ElevrionAI
